import Mathlib

namespace DrfRendererXlsx

/-- Python-like values as handled by the renderer: `None`, booleans, integers,
strings, lists, and (ordered) dictionaries.  A dictionary carries a `ret` flag
distinguishing the framework's `ReturnDict` subclass (the code tests
`isinstance(results, ReturnDict)` separately from plain `dict`).  `ReturnList`
is a `list` subclass and never distinguished from `list` by the code, so lists
carry no flag. -/
inductive Value where
  | vNull
  | vBool (b : Bool)
  | vInt (n : Int)
  | vStr (s : String)
  | vList (xs : List Value)
  | vDict (ret : Bool) (entries : List (String × Value))
deriving Repr

mutual

def decEqValue : (a b : Value) → Decidable (a = b)
  | .vNull, .vNull => .isTrue rfl
  | .vBool x, .vBool y =>
    match Bool.decEq x y with
    | .isTrue h => .isTrue (by rw [h])
    | .isFalse h => .isFalse (fun he => by injection he with h1; exact h h1)
  | .vInt x, .vInt y =>
    match Int.decEq x y with
    | .isTrue h => .isTrue (by rw [h])
    | .isFalse h => .isFalse (fun he => by injection he with h1; exact h h1)
  | .vStr x, .vStr y =>
    match String.decEq x y with
    | .isTrue h => .isTrue (by rw [h])
    | .isFalse h => .isFalse (fun he => by injection he with h1; exact h h1)
  | .vList xs, .vList ys =>
    match decEqValueList xs ys with
    | .isTrue h => .isTrue (by rw [h])
    | .isFalse h => .isFalse (fun he => by injection he with h1; exact h h1)
  | .vDict r es, .vDict r' fs =>
    match Bool.decEq r r', decEqEntryList es fs with
    | .isTrue h1, .isTrue h2 => .isTrue (by rw [h1, h2])
    | .isFalse h1, _ => .isFalse (fun he => by injection he with ha hb; exact h1 ha)
    | _, .isFalse h2 => .isFalse (fun he => by injection he with ha hb; exact h2 hb)
  | .vNull, .vBool _ => .isFalse (fun h => nomatch h)
  | .vNull, .vInt _ => .isFalse (fun h => nomatch h)
  | .vNull, .vStr _ => .isFalse (fun h => nomatch h)
  | .vNull, .vList _ => .isFalse (fun h => nomatch h)
  | .vNull, .vDict _ _ => .isFalse (fun h => nomatch h)
  | .vBool _, .vNull => .isFalse (fun h => nomatch h)
  | .vBool _, .vInt _ => .isFalse (fun h => nomatch h)
  | .vBool _, .vStr _ => .isFalse (fun h => nomatch h)
  | .vBool _, .vList _ => .isFalse (fun h => nomatch h)
  | .vBool _, .vDict _ _ => .isFalse (fun h => nomatch h)
  | .vInt _, .vNull => .isFalse (fun h => nomatch h)
  | .vInt _, .vBool _ => .isFalse (fun h => nomatch h)
  | .vInt _, .vStr _ => .isFalse (fun h => nomatch h)
  | .vInt _, .vList _ => .isFalse (fun h => nomatch h)
  | .vInt _, .vDict _ _ => .isFalse (fun h => nomatch h)
  | .vStr _, .vNull => .isFalse (fun h => nomatch h)
  | .vStr _, .vBool _ => .isFalse (fun h => nomatch h)
  | .vStr _, .vInt _ => .isFalse (fun h => nomatch h)
  | .vStr _, .vList _ => .isFalse (fun h => nomatch h)
  | .vStr _, .vDict _ _ => .isFalse (fun h => nomatch h)
  | .vList _, .vNull => .isFalse (fun h => nomatch h)
  | .vList _, .vBool _ => .isFalse (fun h => nomatch h)
  | .vList _, .vInt _ => .isFalse (fun h => nomatch h)
  | .vList _, .vStr _ => .isFalse (fun h => nomatch h)
  | .vList _, .vDict _ _ => .isFalse (fun h => nomatch h)
  | .vDict _ _, .vNull => .isFalse (fun h => nomatch h)
  | .vDict _ _, .vBool _ => .isFalse (fun h => nomatch h)
  | .vDict _ _, .vInt _ => .isFalse (fun h => nomatch h)
  | .vDict _ _, .vStr _ => .isFalse (fun h => nomatch h)
  | .vDict _ _, .vList _ => .isFalse (fun h => nomatch h)

def decEqValueList : (xs ys : List Value) → Decidable (xs = ys)
  | [], [] => .isTrue rfl
  | [], _ :: _ => .isFalse (fun h => nomatch h)
  | _ :: _, [] => .isFalse (fun h => nomatch h)
  | x :: xs, y :: ys =>
    match decEqValue x y, decEqValueList xs ys with
    | .isTrue h1, .isTrue h2 => .isTrue (by rw [h1, h2])
    | .isFalse h1, _ => .isFalse (fun he => by injection he with ha hb; exact h1 ha)
    | _, .isFalse h2 => .isFalse (fun he => by injection he with ha hb; exact h2 hb)

def decEqEntryList : (es fs : List (String × Value)) → Decidable (es = fs)
  | [], [] => .isTrue rfl
  | [], _ :: _ => .isFalse (fun h => nomatch h)
  | _ :: _, [] => .isFalse (fun h => nomatch h)
  | (k, v) :: es, (k', v') :: fs =>
    match String.decEq k k', decEqValue v v', decEqEntryList es fs with
    | .isTrue h1, .isTrue h2, .isTrue h3 => .isTrue (by rw [h1, h2, h3])
    | .isFalse h1, _, _ =>
      .isFalse (fun he => by
        injection he with hp hr; injection hp with ha hb; exact h1 ha)
    | _, .isFalse h2, _ =>
      .isFalse (fun he => by
        injection he with hp hr; injection hp with ha hb; exact h2 hb)
    | _, _, .isFalse h3 =>
      .isFalse (fun he => by injection he with hp hr; exact h3 hr)

end

instance : DecidableEq Value := decEqValue

/-- Python truthiness for the modelled values. -/
def isTruthy : Value → Bool
  | .vNull => false
  | .vBool b => b
  | .vInt n => n != 0
  | .vStr s => s != ""
  | .vList xs => !xs.isEmpty
  | .vDict _ es => !es.isEmpty

/-- Which modelled values satisfy `isinstance(v, Iterable)` in Python:
strings, lists and mappings are iterable; `None`, booleans and integers are
not. -/
def isIterable : Value → Bool
  | .vStr _ => true
  | .vList _ => true
  | .vDict _ _ => true
  | _ => false

def hexDigit (n : Nat) : Char :=
  if n < 10 then Char.ofNat (48 + n) else Char.ofNat (87 + n)

def hex4 (n : Nat) : String :=
  String.mk [hexDigit (n / 4096 % 16), hexDigit (n / 256 % 16),
             hexDigit (n / 16 % 16), hexDigit (n % 16)]

/-- Escaping of one character inside a JSON string literal, following
`json.dumps` with its default `ensure_ascii=True`. -/
def jsonEscapeChar (c : Char) : String :=
  if c = Char.ofNat 34 then "\\\""
  else if c = Char.ofNat 92 then "\\\\"
  else if c = Char.ofNat 10 then "\\n"
  else if c = Char.ofNat 13 then "\\r"
  else if c = Char.ofNat 9 then "\\t"
  else if c.toNat < 32 || c.toNat > 126 then
    if c.toNat ≤ 65535 then "\\u" ++ hex4 c.toNat
    else
      let m := c.toNat - 65536
      "\\u" ++ hex4 (55296 + m / 1024) ++ "\\u" ++ hex4 (56320 + m % 1024)
  else String.singleton c

def jsonEscape (s : String) : String :=
  String.join (s.data.map jsonEscapeChar)

mutual

/-- Model of `json.dumps(v, cls=DjangoJSONEncoder)` on the modelled values,
with the default separators `", "` and `": "`.  The date/decimal handling of
`DjangoJSONEncoder` concerns value kinds outside the model. -/
def json_dumps : Value → String
  | .vNull => "null"
  | .vBool true => "true"
  | .vBool false => "false"
  | .vInt n => toString n
  | .vStr s => "\"" ++ jsonEscape s ++ "\""
  | .vList xs => "[" ++ json_dumpsList xs ++ "]"
  | .vDict _ es => "\x7b" ++ json_dumpsEntries es ++ "\x7d"

def json_dumpsList : List Value → String
  | [] => ""
  | [x] => json_dumps x
  | x :: y :: rest => json_dumps x ++ ", " ++ json_dumpsList (y :: rest)

def json_dumpsEntries : List (String × Value) → String
  | [] => ""
  | [(k, v)] => "\"" ++ jsonEscape k ++ "\": " ++ json_dumps v
  | (k, v) :: e :: rest =>
      "\"" ++ jsonEscape k ++ "\": " ++ json_dumps v ++ ", " ++
        json_dumpsEntries (e :: rest)

end

/-- Escaping of one character inside a Python `repr` string literal using
quote character `q` (common escapes only). -/
def pyReprEscapeChar (q : Char) (c : Char) : String :=
  if c = Char.ofNat 92 then "\\\\"
  else if c = q then "\\" ++ String.singleton q
  else if c = Char.ofNat 10 then "\\n"
  else if c = Char.ofNat 13 then "\\r"
  else if c = Char.ofNat 9 then "\\t"
  else String.singleton c

/-- Python `repr` of a string: single-quoted, switching to double quotes when
the string contains a single quote but no double quote. -/
def pyReprStr (s : String) : String :=
  let sq := Char.ofNat 39
  let dq := Char.ofNat 34
  if s.contains sq && !(s.contains dq) then
    String.singleton dq ++ String.join (s.data.map (pyReprEscapeChar dq)) ++
      String.singleton dq
  else
    String.singleton sq ++ String.join (s.data.map (pyReprEscapeChar sq)) ++
      String.singleton sq

mutual

/-- Model of Python `str(v)` on the modelled values. -/
def pyStr : Value → String
  | .vNull => "None"
  | .vBool true => "True"
  | .vBool false => "False"
  | .vInt n => toString n
  | .vStr s => s
  | .vList xs => "[" ++ pyReprList xs ++ "]"
  | .vDict _ es => "\x7b" ++ pyReprEntries es ++ "\x7d"

/-- Model of Python `repr(v)`; containers display their elements with `repr`. -/
def pyRepr : Value → String
  | .vNull => "None"
  | .vBool true => "True"
  | .vBool false => "False"
  | .vInt n => toString n
  | .vStr s => pyReprStr s
  | .vList xs => "[" ++ pyReprList xs ++ "]"
  | .vDict _ es => "\x7b" ++ pyReprEntries es ++ "\x7d"

def pyReprList : List Value → String
  | [] => ""
  | [x] => pyRepr x
  | x :: y :: rest => pyRepr x ++ ", " ++ pyReprList (y :: rest)

def pyReprEntries : List (String × Value) → String
  | [] => ""
  | [(k, v)] => pyReprStr k ++ ": " ++ pyRepr v
  | (k, v) :: e :: rest =>
      pyReprStr k ++ ": " ++ pyRepr v ++ ", " ++ pyReprEntries (e :: rest)

end

example : json_dumps (.vList [.vList [.vInt 1, .vInt 2], .vList [.vInt 3, .vInt 4]]) =
    "[[1, 2], [3, 4]]" := by decide

example : pyStr (.vInt (-3)) = "-3" := by decide

/-- Python runtime errors the renderer's code can hit on the modelled values. -/
inductive PyError where
  | typeError
  | keyError
  | indexError
  | attributeError
  | nameError
deriving DecidableEq, Repr

instance {ε α : Type} [DecidableEq ε] [DecidableEq α] : DecidableEq (Except ε α) :=
  fun a b =>
    match a, b with
    | .ok x, .ok y =>
      if h : x = y then .isTrue (by rw [h])
      else .isFalse (fun he => by injection he with h1; exact h h1)
    | .error e, .error f =>
      if h : e = f then .isTrue (by rw [h])
      else .isFalse (fun he => by injection he with h1; exact h h1)
    | .ok _, .error _ => .isFalse (fun h => nomatch h)
    | .error _, .ok _ => .isFalse (fun h => nomatch h)

/-- Bool test for a needle appearing as a contiguous substring of a haystack
(Python `needle in haystack` on strings). -/
def strHasSub (needle : List Char) : List Char → Bool
  | [] => needle.isEmpty
  | c :: rest => needle.isPrefixOf (c :: rest) || strHasSub needle rest

/-- First-match association-list lookup: Python `d[k]` / `k in d` semantics on
a dict modelled as an ordered entry list (real dicts have unique keys). -/
def lookupKey : List (String × Value) → String → Option Value
  | [], _ => none
  | (k', v) :: rest, k => if k' = k then some v else lookupKey rest k

/-- Python `k in v` for a string key: key test on dicts, element test on
lists, substring test on strings; `TypeError` on `None`, booleans and
integers (`argument of type ... is not iterable`). -/
def py_contains (v : Value) (k : String) : Except PyError Bool :=
  match v with
  | .vDict _ es => .ok (es.any (fun kv => kv.1 == k))
  | .vList xs => .ok (xs.any (fun x => decide (x = Value.vStr k)))
  | .vStr s => .ok (strHasSub k.data s.data)
  | _ => .error .typeError

/-- Python `len(v)`: length of strings, lists and dicts; `TypeError`
otherwise. -/
def py_len (v : Value) : Except PyError Nat :=
  match v with
  | .vStr s => .ok s.length
  | .vList xs => .ok xs.length
  | .vDict _ es => .ok es.length
  | _ => .error .typeError

/-- Python `v[i]` for a non-negative integer index. -/
def py_index (v : Value) (i : Nat) : Except PyError Value :=
  match v with
  | .vList xs =>
    match xs[i]? with
    | some x => .ok x
    | none => .error .indexError
  | .vStr s =>
    match s.data[i]? with
    | some c => .ok (.vStr (String.singleton c))
    | none => .error .indexError
  | .vDict _ _ => .error .keyError
  | _ => .error .typeError

/-- Python `v[k]` for a string key: dict lookup (`KeyError` when absent);
`TypeError` on lists (string index) and other values. -/
def py_getitem (v : Value) (k : String) : Except PyError Value :=
  match v with
  | .vDict _ es =>
    match lookupKey es k with
    | some x => .ok x
    | none => .error .keyError
  | _ => .error .typeError

/-- Python `v.get(k, default)`: only dicts have the method (`AttributeError`
otherwise). -/
def pyDictGet (v : Value) (k : String) (default : Value) : Except PyError Value :=
  match v with
  | .vDict _ es => .ok ((lookupKey es k).getD default)
  | _ => .error .attributeError

/-- One step of Python dict construction: `d[k] = v` on an ordered entry
list — an existing key keeps its position and gets the new value, a new key
is appended. -/
def insertItem : List (String × Value) → String → Value → List (String × Value)
  | [], k, v => [(k, v)]
  | (k', v') :: rest, k, v =>
    if k' = k then (k', v) :: rest else (k', v') :: insertItem rest k v

/-- Python `dict(items)`: first-seen key order, last value wins. -/
def dictOfItems (items : List (String × Value)) : List (String × Value) :=
  items.foldl (fun acc kv => insertItem acc kv.1 kv.2) []

/-- The key computation of `_flatten`:
`new_key = f"{parent_key}{key_sep}{k}" if parent_key else k`. -/
def mkKey (key_sep parent_key k : String) : String :=
  if parent_key != "" then parent_key ++ key_sep ++ k else k

/-- The list branch of `_flatten` (lines 172-179 of renderers.py): a
non-string iterable value becomes a JSON dump when non-empty with an iterable
first element (`isinstance(v[0], Iterable)` is true for lists, strings and
mappings), and a `list_sep`-joined string of `str` images otherwise. -/
def flattenListValue (list_sep : String) (xs : List Value) : Value :=
  match xs with
  | [] => .vStr ""
  | x :: _ =>
    if isIterable x then .vStr (json_dumps (.vList xs))
    else .vStr (String.intercalate list_sep (xs.map pyStr))

mutual

/-- The `items` accumulation loop of `XLSXRenderer._flatten` (lines 167-181
of renderers.py): each field contributes its `flattenEntry` items in order. -/
def flattenItems (key_sep list_sep : String) :
    List (String × Value) → String → List (String × Value)
  | [], _ => []
  | (k, v) :: rest, parent_key =>
    flattenEntry key_sep list_sep k v parent_key ++
      flattenItems key_sep list_sep rest parent_key

/-- The loop body of `_flatten` for one field `k` with value `v`: a mapping
value recurses (the recursive call rebuilds a dict, hence the inner
`dictOfItems`, and passes `key_sep` but leaves `list_sep` at its default
`", "`); a non-string iterable value contributes one flattened entry; any
other value is kept verbatim under `new_key`. -/
def flattenEntry (key_sep list_sep : String) (k : String) (v : Value)
    (parent_key : String) : List (String × Value) :=
  match v with
  | .vDict _ es =>
    dictOfItems (flattenItems key_sep ", " es (mkKey key_sep parent_key k))
  | .vList xs => [(mkKey key_sep parent_key k, flattenListValue list_sep xs)]
  | v => [(mkKey key_sep parent_key k, v)]

end

/-- `XLSXRenderer._flatten(data, parent_key, key_sep, list_sep)` on the
entries of a mapping: accumulate the items, then `dict(items)`. -/
def _flatten (data : List (String × Value)) (parent_key key_sep list_sep : String) :
    List (String × Value) :=
  dictOfItems (flattenItems key_sep list_sep data parent_key)

/-- `_flatten` applied to an arbitrary value, as the renderer does with
`results[0]` and with each body row: a non-mapping has no `.items()` and
raises `AttributeError`. -/
def _flattenValue (row : Value) : Except PyError (List (String × Value)) :=
  match row with
  | .vDict _ es => .ok (_flatten es "" "." ", ")
  | _ => .error .attributeError

/-- `XLSXRenderer._json_format_response`: `json.dumps(response_data)` (the
plain encoder agrees with the Django one on the modelled values). -/
def _json_format_response (response_data : Value) : String :=
  json_dumps response_data

/-- `XLSXRenderer._check_validatation_data` (lines 159-163 of renderers.py):
`False` when `"detail" in data`, `True` otherwise; evaluating `in` on the
payload can itself raise (`"detail" in None` is a `TypeError`). -/
def _check_validatation_data (data : Value) : Except PyError Bool :=
  match py_contains data "detail" with
  | .ok b => .ok (!b)
  | .error e => .error e

/-- An openpyxl `NamedStyle`, kept abstract: its name and the style dict it
was built from (font/fill/border/alignment construction is openpyxl's
business, outside the model). -/
structure NamedStyle where
  name : String
  spec : Value
deriving DecidableEq, Repr

/-- `get_style_from_dict(style_dict, style_name)`: builds the named style
from the declarative dict; the openpyxl attribute objects are out of scope,
so the model records the inputs. -/
def get_style_from_dict (style_dict : Value) (style_name : String) : NamedStyle :=
  ⟨style_name, style_dict⟩

/-- The view object of `renderer_context["view"]`, seen through `getattr`:
`attrs n` is `getattr(view, n, None)` (`none` = attribute missing), and
`getters n` is the result of calling the zero-argument method `n` when that
method exists (bound methods are always truthy). -/
structure ViewConfig where
  attrs : String → Option Value
  getters : String → Option Value

/-- `get_attribute(get_from, prop_name, default)` (lines 52-67 of
renderers.py): take the attribute; if falsy, call `get_<prop_name>()` when it
exists; if the result is `None`, use the default. -/
def get_attribute (get_from : ViewConfig) (prop_name : String) (default : Value) :
    Value :=
  let prop := (get_from.attrs prop_name).getD .vNull
  let prop :=
    if isTruthy prop then prop
    else
      match get_from.getters ("get_" ++ prop_name) with
      | some result => result
      | none => prop
  if prop = .vNull then default else prop

/-- A view exposing no `xlsx_*` configuration at all. -/
def emptyView : ViewConfig := ⟨fun _ => none, fun _ => none⟩

/-- `PatternFill(fill_type="solid", start_color=c)`, recording its two
arguments. -/
structure PatternFill where
  fill_type : String
  start_color : Value
deriving DecidableEq, Repr

/-- A `WriteOnlyCell` after the renderer has set its value, its named style
and (for body rows with a row color) its fill. -/
structure Cell where
  value : Value
  style : NamedStyle
  fill : Option PatternFill
deriving DecidableEq, Repr

/-- The column-header loop of `render` (lines 131-146 of renderers.py):
walk the discovered column names, skip the reserved `row_color` key,
and give the `column_count`-th kept column the display name
`column_titles[column_count - 1]` when the title list is long enough, else
the discovered name.  `len(column_titles)` is evaluated on each kept column,
exactly as in the source. -/
def columnHeaderLoop (column_header_style : NamedStyle) (column_titles : Value) :
    List String → Nat → Except PyError (List Cell)
  | [], _ => .ok []
  | column_name :: rest, column_count =>
    if column_name = "row_color" then
      columnHeaderLoop column_header_style column_titles rest column_count
    else do
      let cc := column_count + 1
      let len ← py_len column_titles
      let display ←
        if cc > len then pure (Value.vStr column_name)
        else py_index column_titles (cc - 1)
      let restCells ← columnHeaderLoop column_header_style column_titles rest cc
      pure (⟨display, column_header_style, none⟩ :: restCells)

/-- `XLSXRenderer._make_body` (lines 189-209 of renderers.py): flatten the
row; when the (unflattened) row has a `row_color` key build a solid
`PatternFill` from its value; emit one styled cell per flattened entry,
skipping the entry whose flattened key is `row_color`. -/
def _make_body (body_style : NamedStyle) (row : Value) : Except PyError (List Cell) := do
  let flatten_row ← _flattenValue row
  let hasColor ← py_contains row "row_color"
  let fill : Option PatternFill ←
    if hasColor then do
      let c ← py_getitem row "row_color"
      pure (some ⟨"solid", c⟩)
    else pure none
  pure ((flatten_row.filter (fun kv => kv.1 != "row_color")).map
    (fun kv => ⟨kv.2, body_style, fill⟩))

/-- The body loop of `render` for list results (lines 152-154 of
renderers.py): one `_make_body` row per record, in order. -/
def makeBodyRows (body_style : NamedStyle) :
    List Value → Except PyError (List (List Cell))
  | [] => .ok []
  | row :: rest => do
    let cells ← _make_body body_style row
    let restRows ← makeBodyRows body_style rest
    pure (cells :: restRows)

/-- What `render` produces: the JSON fallback text for error payloads, empty
bytes, or a workbook (modelled as its single sheet: tab title, whether an
image was anchored at A1, and the appended rows in order). -/
inductive RenderResult where
  | jsonText (s : String)
  | emptyBytes
  | workbook (tab_title : Value) (hasImage : Bool) (rows : List (List Cell))
deriving DecidableEq, Repr

/-- `XLSXRenderer.render` (lines 78-156 of renderers.py), step for step:
validation fallback, the (unreachable) `None` check, `results` extraction,
configuration lookup via `get_attribute`, style building, image and titles,
optional banner row, column-header row when `len(results)` is non-zero, and
the body rows.  Binary serialisation (`save_virtual_workbook`) is out of
scope; the workbook state is returned instead. -/
def render (data : Value) (view : ViewConfig) : Except PyError RenderResult := do
  let valid ← _check_validatation_data data
  if !valid then
    return .jsonText (_json_format_response data)
  if data = .vNull then
    return .emptyBytes
  let hasResults ← py_contains data "results"
  let results ← if hasResults then py_getitem data "results" else pure data
  let header := get_attribute view "xlsx_header" (.vDict false [])
  let column_header := get_attribute view "xlsx_column_header" (.vDict false [])
  let body := get_attribute view "xlsx_body" (.vDict false [])
  let header_style := get_style_from_dict (← pyDictGet header "style" .vNull)
    "header_style"
  let column_header_style := get_style_from_dict
    (← pyDictGet column_header "style" .vNull) "column_header_style"
  let body_style := get_style_from_dict (← pyDictGet body "style" .vNull)
    "body_style"
  let img_addr ← pyDictGet header "img" .vNull
  let hasImage := isTruthy img_addr
  let tab_title ← pyDictGet header "tab_title" (.vStr "Report")
  let header_title ← pyDictGet header "header_title" (.vStr "Report")
  let headerRows : List (List Cell) :=
    if isTruthy header then [[⟨header_title, header_style, none⟩]] else []
  let column_titles ← pyDictGet column_header "titles" (.vList [])
  let n ← py_len results
  let columnRows ←
    if n != 0 then do
      let column_names ←
        match results with
        | .vDict _ es => Except.ok (es.map Prod.fst)
        | .vList xs =>
          match xs[0]? with
          | some first =>
            match _flattenValue first with
            | .ok entries => Except.ok (entries.map Prod.fst)
            | .error e => Except.error e
          | none => Except.error PyError.indexError
        | _ => Except.error PyError.nameError
      let row ← columnHeaderLoop column_header_style column_titles column_names 0
      pure [row]
    else pure ([] : List (List Cell))
  let bodyRows ←
    match results with
    | .vDict true es => do
      let cells ← _make_body body_style (.vDict true es)
      pure [cells]
    | .vList xs => makeBodyRows body_style xs
    | _ => pure ([] : List (List Cell))
  return .workbook tab_title hasImage (headerRows ++ columnRows ++ bodyRows)

/-- The cells `_make_body` emits for a mapping row (proved equal to
`_make_body` below): the flattened entries minus the reserved `row_color`
key, each styled with the body style and filled with the row's solid
`row_color` fill when that key is present. -/
def bodyRowCells (body_style : NamedStyle) (es : List (String × Value)) : List Cell :=
  ((_flatten es "" "." ", ").filter (fun kv => kv.1 != "row_color")).map
    (fun kv => ⟨kv.2, body_style, (lookupKey es "row_color").map (fun c => ⟨"solid", c⟩)⟩)

/-- A view whose `xlsx_body` attribute is bound to a falsy value (an empty
dict) while a `get_xlsx_body` accessor method exists. -/
def sampleView : ViewConfig :=
  ⟨fun n => if n = "xlsx_body" then some (.vDict false []) else none,
   fun n => if n = "get_xlsx_body" then some (.vStr "configured") else none⟩

section Lemmas

@[simp]
theorem pyOkBind {α β : Type} (a : α) (f : α → Except PyError β) :
    (Except.ok a >>= f : Except PyError β) = f a := rfl

@[simp]
theorem pyErrorBind {α β : Type} (e : PyError) (f : α → Except PyError β) :
    (Except.error e >>= f : Except PyError β) = Except.error e := rfl

@[simp]
theorem pyPureEqOk {α : Type} (a : α) : (pure a : Except PyError α) = Except.ok a := rfl

theorem any_key_eq_true_iff (es : List (String × Value)) (k : String) :
    es.any (fun kv => kv.1 == k) = true ↔ k ∈ es.map Prod.fst := by
  simp only [List.any_eq_true, beq_iff_eq, List.mem_map]

theorem lookupKey_isSome (es : List (String × Value)) (k : String) :
    (lookupKey es k).isSome = es.any (fun kv => kv.1 == k) := by
  induction es with
  | nil => rfl
  | cons hd tl ih =>
    obtain ⟨k', v⟩ := hd
    by_cases h : k' = k <;> simp [lookupKey, h, ih]

theorem get_attribute_emptyView (n : String) (d : Value) :
    get_attribute emptyView n d = d := rfl

theorem make_body_dict (bs : NamedStyle) (ret : Bool) (es : List (String × Value)) :
    _make_body bs (.vDict ret es) = .ok (bodyRowCells bs es) := by
  have hsome := lookupKey_isSome es "row_color"
  cases h : lookupKey es "row_color" with
  | none =>
    rw [h] at hsome
    have hany : es.any (fun kv => kv.1 == "row_color") = false := by
      simpa using hsome.symm
    simp [_make_body, _flattenValue, py_contains, hany, bodyRowCells, h]
  | some c =>
    rw [h] at hsome
    have hany : es.any (fun kv => kv.1 == "row_color") = true := by
      simpa using hsome.symm
    simp [_make_body, _flattenValue, py_contains, py_getitem, hany, bodyRowCells, h]

theorem columnHeaderLoop_nil_titles (st : NamedStyle) :
    ∀ (names : List String) (c : Nat),
      columnHeaderLoop st (.vList []) names c =
        .ok ((names.filter (fun n => n != "row_color")).map
          (fun n => ⟨.vStr n, st, none⟩)) := by
  intro names
  induction names with
  | nil => intro c; simp [columnHeaderLoop]
  | cons hd tl ih =>
    intro c
    by_cases h : hd = "row_color"
    · simp [columnHeaderLoop, h, ih]
    · simp [columnHeaderLoop, h, ih, py_len]

theorem columnHeaderLoop_filter_row_color (st : NamedStyle) (ts : Value) :
    ∀ (names : List String) (c : Nat),
      columnHeaderLoop st ts names c =
        columnHeaderLoop st ts (names.filter (fun n => n != "row_color")) c := by
  intro names
  induction names with
  | nil => intro c; rfl
  | cons hd tl ih =>
    intro c
    by_cases h : hd = "row_color"
    · simp [columnHeaderLoop, h, ih]
    · simp only [List.filter_cons, h, bne_iff_ne, ne_eq, not_false_eq_true, if_true]
      simp only [columnHeaderLoop, h, if_false]
      rw [ih]

theorem map_dicts_any_vStr (ps : List (Bool × List (String × Value))) (k : String) :
    (ps.map (fun p => Value.vDict p.1 p.2)).any
      (fun x => decide (x = Value.vStr k)) = false := by
  induction ps with
  | nil => rfl
  | cons hd tl ih => simp [ih]

theorem makeBodyRows_map (bs : NamedStyle) (ps : List (Bool × List (String × Value))) :
    makeBodyRows bs (ps.map (fun p => Value.vDict p.1 p.2)) =
      .ok (ps.map (fun p => bodyRowCells bs p.2)) := by
  induction ps with
  | nil => rfl
  | cons hd tl ih => simp [makeBodyRows, make_body_dict, ih]

theorem render_dict_emptyView (ret : Bool) (es : List (String × Value))
    (h1 : es ≠ []) (h2 : "detail" ∉ es.map Prod.fst)
    (h3 : "results" ∉ es.map Prod.fst) :
    render (.vDict ret es) emptyView = .ok (.workbook (.vStr "Report") false
      (((es.map Prod.fst).filter (fun n => n != "row_color")).map
          (fun n => ⟨.vStr n, ⟨"column_header_style", .vNull⟩, none⟩) ::
        (if ret then [bodyRowCells ⟨"body_style", .vNull⟩ es] else []))) := by
  have hd : es.any (fun kv => kv.1 == "detail") = false := by
    rw [← Bool.not_eq_true, any_key_eq_true_iff]; exact h2
  have hr : es.any (fun kv => kv.1 == "results") = false := by
    rw [← Bool.not_eq_true, any_key_eq_true_iff]; exact h3
  have hlen : (es.length != 0) = true := by
    simp only [bne_iff_ne, ne_eq, List.length_eq_zero]; exact h1
  cases ret <;>
    simp [render, _check_validatation_data, py_contains, hd, hr,
      get_attribute_emptyView, pyDictGet, lookupKey, py_len, hlen,
      columnHeaderLoop_nil_titles, make_body_dict, isTruthy, h1,
      get_style_from_dict]

theorem flattenItems_append (ks ls : String) (b : List (String × Value)) :
    ∀ (a : List (String × Value)) (pk : String),
      flattenItems ks ls (a ++ b) pk =
        flattenItems ks ls a pk ++ flattenItems ks ls b pk := by
  intro a
  induction a with
  | nil => intro pk; simp [flattenItems]
  | cons hd tl ih =>
    intro pk
    obtain ⟨k, v⟩ := hd
    simp [flattenItems, ih]

theorem columnHeaderLoop_vList_get (st : NamedStyle) (ts : List Value) :
    ∀ (names : List String) (c : Nat) (cells : List Cell),
      columnHeaderLoop st (.vList ts) names c = .ok cells →
      ∀ i : Nat, cells[i]? = ((names.filter (fun n => n != "row_color"))[i]?).map
        (fun n => Cell.mk ((ts[c + i]?).getD (.vStr n)) st none) := by
  intro names
  induction names with
  | nil =>
    intro c cells h i
    simp only [columnHeaderLoop, Except.ok.injEq] at h
    subst h
    simp
  | cons hd tl ih =>
    intro c cells h i
    by_cases hh : hd = "row_color"
    · simp only [columnHeaderLoop, hh, if_true] at h
      have := ih c cells h i
      simpa [List.filter_cons, hh] using this
    · simp only [columnHeaderLoop, hh, if_false, py_len, pyOkBind] at h
      by_cases hc : c + 1 > ts.length
      · simp only [hc, if_true, pyPureEqOk, pyOkBind] at h
        cases hrec : columnHeaderLoop st (.vList ts) tl (c + 1) with
        | error e => rw [hrec] at h; simp at h
        | ok rest =>
          rw [hrec] at h
          simp only [pyOkBind, pyPureEqOk, Except.ok.injEq] at h
          subst h
          have hnone : ts[c]? = none := by
            rw [List.getElem?_eq_none]; omega
          cases i with
          | zero => simp [List.filter_cons, hh, hnone]
          | succ j =>
            have hrest := ih (c + 1) rest hrec j
            have hidx : c + 1 + j = c + (j + 1) := by omega
            rw [hidx] at hrest
            simpa [List.filter_cons, hh] using hrest
      · have hlt : c < ts.length := by omega
        have hgot : ts[c + 1 - 1]? = some ts[c] := by
          simp only [Nat.add_sub_cancel]
          exact List.getElem?_eq_getElem hlt
        simp only [hc, if_false, py_index, hgot, pyOkBind] at h
        cases hrec : columnHeaderLoop st (.vList ts) tl (c + 1) with
        | error e => rw [hrec] at h; simp at h
        | ok rest =>
          rw [hrec] at h
          simp only [pyOkBind, pyPureEqOk, Except.ok.injEq] at h
          subst h
          have hsome : ts[c]? = some ts[c] := List.getElem?_eq_getElem hlt
          cases i with
          | zero => simp [List.filter_cons, hh, hsome]
          | succ j =>
            have hrest := ih (c + 1) rest hrec j
            have hidx : c + 1 + j = c + (j + 1) := by omega
            rw [hidx] at hrest
            simpa [List.filter_cons, hh] using hrest

end Lemmas

section Claims

/-- C1: the claim says that for the payload `None`, `render` returns an empty
byte sequence and does not raise.  On the code this is false: `render` calls
`_check_validatation_data(data)` before its `data is None` check, and
evaluating `"detail" in None` raises a `TypeError`, so the
`if data is None: return bytes()` branch at lines 85-86 is dead code.  This
theorem evaluates the embedded code at the failing input. -/
theorem c1_none_payload_raises_type_error (view : ViewConfig) :
    render .vNull view = .error .typeError := rfl

/-- C2: for every payload mapping that contains a `detail` key, `render`
returns the JSON text encoding of that payload; no spreadsheet is built and
nothing is raised. -/
theorem c2_detail_payload_json_fallback (ret : Bool) (es : List (String × Value))
    (view : ViewConfig) (h : "detail" ∈ es.map Prod.fst) :
    render (.vDict ret es) view =
      .ok (.jsonText (_json_format_response (.vDict ret es))) := by
  have hany : es.any (fun kv => kv.1 == "detail") = true :=
    (any_key_eq_true_iff es "detail").mpr h
  simp [render, _check_validatation_data, py_contains, hany]

/-- C2 witness: the payload with key `detail` mapped to `not found` renders
as its JSON text. -/
theorem c2_detail_payload_json_fallback_witness :
    render (.vDict false [("detail", .vStr "not found")]) emptyView =
      .ok (.jsonText "\x7b\"detail\": \"not found\"\x7d") :=
  (c2_detail_payload_json_fallback false [("detail", .vStr "not found")] emptyView
    (by decide)).trans (by decide)

/-- C3 counterexample: for a plain (non-`ReturnDict`) singular non-empty
mapping, line 150's `isinstance(results, ReturnDict)` is false while line
126's `isinstance(results, (ReturnDict, dict))` was true, so the rendered
workbook holds only the column-header row and no data row at all — not
"exactly one data row" as claimed. -/
theorem c3_plain_dict_produces_no_body_row :
    render (.vDict false [("a", .vInt 1)]) emptyView =
      .ok (.workbook (.vStr "Report") false
        [[⟨.vStr "a", ⟨"column_header_style", .vNull⟩, none⟩]]) := by decide

/-- C3 (amended): for every `results` that is a singular non-empty mapping of
the framework's `ReturnDict` type, exactly one data row is produced (after
the column-header row built from that mapping's own keys); a plain `dict`
produces no data row. -/
theorem c3_return_dict_single_body_row (es : List (String × Value))
    (h1 : es ≠ []) (h2 : "detail" ∉ es.map Prod.fst)
    (h3 : "results" ∉ es.map Prod.fst) :
    render (.vDict true es) emptyView = .ok (.workbook (.vStr "Report") false
      [((es.map Prod.fst).filter (fun n => n != "row_color")).map
          (fun n => ⟨.vStr n, ⟨"column_header_style", .vNull⟩, none⟩),
        bodyRowCells ⟨"body_style", .vNull⟩ es]) := by
  simpa using render_dict_emptyView true es h1 h2 h3

/-- C3 witness: a two-field `ReturnDict` yields one column-header row from
its own keys and exactly one data row. -/
theorem c3_return_dict_single_body_row_witness :
    render (.vDict true [("a", .vInt 1), ("b", .vStr "x")]) emptyView =
      .ok (.workbook (.vStr "Report") false
        [[⟨.vStr "a", ⟨"column_header_style", .vNull⟩, none⟩,
          ⟨.vStr "b", ⟨"column_header_style", .vNull⟩, none⟩],
         [⟨.vInt 1, ⟨"body_style", .vNull⟩, none⟩,
          ⟨.vStr "x", ⟨"body_style", .vNull⟩, none⟩]]) :=
  (c3_return_dict_single_body_row [("a", .vInt 1), ("b", .vStr "x")]
    (by decide) (by decide) (by decide)).trans (by decide)

/-- C4 counterexample: for the singular record mapping `a` to a nested
mapping, the column-header row shows the top-level key `a` (line 127 uses
`results` itself, unflattened), while the flattened keys of the record are
`a.b` — so the discovered columns are not the flattened keys as claimed. -/
theorem c4_nested_record_header_uses_top_level_key :
    render (.vDict true [("a", .vDict false [("b", .vInt 1)])]) emptyView =
      .ok (.workbook (.vStr "Report") false
        [[⟨.vStr "a", ⟨"column_header_style", .vNull⟩, none⟩],
         [⟨.vInt 1, ⟨"body_style", .vNull⟩, none⟩]]) ∧
    (_flatten [("a", .vDict false [("b", .vInt 1)])] "" "." ", ").map Prod.fst =
      ["a.b"] ∧
    ("a" : String) ≠ "a.b" :=
  ⟨by decide, by decide, by decide⟩

/-- C4 (amended): for every `results` that is a single record (mapping), the
discovered column keys used for the column-header row are the record's own
top-level keys, not its flattened keys; flattening contributes to column
discovery only when `results` is a list (of its first element). -/
theorem c4_dict_columns_are_top_level_keys (ret : Bool) (es : List (String × Value))
    (h1 : es ≠ []) (h2 : "detail" ∉ es.map Prod.fst)
    (h3 : "results" ∉ es.map Prod.fst) :
    render (.vDict ret es) emptyView = .ok (.workbook (.vStr "Report") false
      (((es.map Prod.fst).filter (fun n => n != "row_color")).map
          (fun n => ⟨.vStr n, ⟨"column_header_style", .vNull⟩, none⟩) ::
        (if ret then [bodyRowCells ⟨"body_style", .vNull⟩ es] else []))) :=
  render_dict_emptyView ret es h1 h2 h3

/-- C4 witness: a nested two-field record's column-header row carries its
top-level keys `x` and `z`. -/
theorem c4_dict_columns_are_top_level_keys_witness :
    render (.vDict true [("x", .vDict false [("y", .vInt 2)]), ("z", .vInt 3)])
        emptyView =
      .ok (.workbook (.vStr "Report") false
        [[⟨.vStr "x", ⟨"column_header_style", .vNull⟩, none⟩,
          ⟨.vStr "z", ⟨"column_header_style", .vNull⟩, none⟩],
         [⟨.vInt 2, ⟨"body_style", .vNull⟩, none⟩,
          ⟨.vInt 3, ⟨"body_style", .vNull⟩, none⟩]]) :=
  (c4_dict_columns_are_top_level_keys true
    [("x", .vDict false [("y", .vInt 2)]), ("z", .vInt 3)]
    (by decide) (by decide) (by decide)).trans (by decide)

/-- C5 counterexample: with list results whose first record has only key `a`
and whose second record additionally has key `b`, the second body row carries
two cells — the extra key's value is emitted, not ignored, although only one
column was discovered from the first record. -/
theorem c5_extra_keys_of_later_records_are_emitted :
    render (.vList [.vDict false [("a", .vInt 1)],
        .vDict false [("a", .vInt 1), ("b", .vInt 2)]]) emptyView =
      .ok (.workbook (.vStr "Report") false
        [[⟨.vStr "a", ⟨"column_header_style", .vNull⟩, none⟩],
         [⟨.vInt 1, ⟨"body_style", .vNull⟩, none⟩],
         [⟨.vInt 1, ⟨"body_style", .vNull⟩, none⟩,
          ⟨.vInt 2, ⟨"body_style", .vNull⟩, none⟩]]) := by decide

/-- C5 (amended): for every non-empty list of record mappings, each emitted
body row contains one cell per non-reserved flattened key of that record
itself, in that record's own flattening order, styled with the body style;
the columns discovered from the first record shape only the header row, and
rows are not aligned to them. -/
theorem c5_body_rows_follow_each_records_own_flattening
    (q : Bool × List (String × Value)) (qs : List (Bool × List (String × Value))) :
    render (.vList ((q :: qs).map (fun p => Value.vDict p.1 p.2))) emptyView =
      .ok (.workbook (.vStr "Report") false
        ((((_flatten q.2 "" "." ", ").map Prod.fst).filter
              (fun n => n != "row_color")).map
            (fun n => ⟨.vStr n, ⟨"column_header_style", .vNull⟩, none⟩) ::
          (q :: qs).map (fun p => bodyRowCells ⟨"body_style", .vNull⟩ p.2))) := by
  simp [render, _check_validatation_data, py_contains, map_dicts_any_vStr,
    get_attribute_emptyView, pyDictGet, lookupKey, py_len,
    columnHeaderLoop_nil_titles, makeBodyRows_map, makeBodyRows, _flattenValue,
    isTruthy, make_body_dict, get_style_from_dict]

/-- C6: the reserved key `row_color` contributes no emitted cell: when a
record carries `row_color` (any position), `_make_body` emits exactly the
cells of the other flattened entries, each with a solid fill built from the
`row_color` value; and the column-header loop is unchanged by removing
`row_color` from the discovered names, i.e. that key never yields a header
cell. -/
theorem c6_row_color_excluded_and_sets_fill (bs : NamedStyle) (ret : Bool)
    (es : List (String × Value)) (c : Value)
    (h : lookupKey es "row_color" = some c) :
    _make_body bs (.vDict ret es) = .ok
      (((_flatten es "" "." ", ").filter (fun kv => kv.1 != "row_color")).map
        (fun kv => ⟨kv.2, bs, some ⟨"solid", c⟩⟩)) ∧
    ∀ (st : NamedStyle) (ts : Value) (names : List String) (cnt : Nat),
      columnHeaderLoop st ts names cnt =
        columnHeaderLoop st ts (names.filter (fun n => n != "row_color")) cnt := by
  refine ⟨?_, fun st ts names cnt => columnHeaderLoop_filter_row_color st ts names cnt⟩
  rw [make_body_dict]
  simp [bodyRowCells, h]

/-- C6 witness: a record with `row_color` mapped to `FFCCFFCC` emits only the
cell of its other field, filled solid with that color, and filtering
`row_color` out of a discovered-name list leaves the header loop's output
unchanged. -/
theorem c6_row_color_excluded_and_sets_fill_witness :
    _make_body ⟨"body_style", .vNull⟩
        (.vDict false [("a", .vInt 5), ("row_color", .vStr "FFCCFFCC")]) =
      .ok [⟨.vInt 5, ⟨"body_style", .vNull⟩, some ⟨"solid", .vStr "FFCCFFCC"⟩⟩] ∧
    columnHeaderLoop ⟨"column_header_style", .vNull⟩ (.vList [])
        ["row_color", "a"] 0 =
      columnHeaderLoop ⟨"column_header_style", .vNull⟩ (.vList []) ["a"] 0 := by
  have h := c6_row_color_excluded_and_sets_fill ⟨"body_style", .vNull⟩ false
    [("a", .vInt 5), ("row_color", .vStr "FFCCFFCC")] (.vStr "FFCCFFCC") (by decide)
  exact ⟨h.1.trans (by decide),
    h.2 ⟨"column_header_style", .vNull⟩ (.vList []) ["row_color", "a"] 0⟩

/-- C7: a record field holding a non-string iterable contributes exactly one
flattened entry: the JSON dump of the whole value when the iterable is
non-empty with an iterable first element, else the comma-space join of the
elements' `str` images (empty for the empty sequence); with the claim's two
examples. -/
theorem c7_flatten_list_fields :
    (∀ (ks ls pk k : String) (xs : List Value)
        (es₁ es₂ : List (String × Value)),
      flattenItems ks ls (es₁ ++ (k, .vList xs) :: es₂) pk =
        flattenItems ks ls es₁ pk ++
          (mkKey ks pk k,
            match xs with
            | [] => Value.vStr ""
            | x :: _ =>
              if isIterable x then Value.vStr (json_dumps (.vList xs))
              else Value.vStr (String.intercalate ls (xs.map pyStr))) ::
            flattenItems ks ls es₂ pk) ∧
    _flatten [("tags", .vList [.vInt 1, .vInt 2, .vInt 3])] "" "." ", " =
      [("tags", .vStr "1, 2, 3")] ∧
    _flatten [("m", .vList [.vList [.vInt 1, .vInt 2], .vList [.vInt 3, .vInt 4]])]
        "" "." ", " =
      [("m", .vStr "[[1, 2], [3, 4]]")] := by
  refine ⟨?_, by decide, by decide⟩
  intro ks ls pk k xs es₁ es₂
  rw [flattenItems_append]
  congr 1

/-- C8: in the column-header loop, the i-th kept (non-reserved) discovered
column is displayed under the i-th override title when the title list is
long enough, and under the discovered name itself otherwise. -/
theorem c8_column_title_overrides (st : NamedStyle) (ts : List Value)
    (names : List String) (cells : List Cell)
    (h : columnHeaderLoop st (.vList ts) names 0 = .ok cells) (i : Nat) :
    cells[i]? = ((names.filter (fun n => n != "row_color"))[i]?).map
      (fun n => Cell.mk ((ts[i]?).getD (.vStr n)) st none) := by
  have := columnHeaderLoop_vList_get st ts names 0 cells h i
  simpa using this

/-- C8 witness: with titles `[A]` and discovered columns `[id, name]` the
header row reads `A`, `name`. -/
theorem c8_column_title_overrides_witness :
    ([⟨Value.vStr "A", ⟨"column_header_style", Value.vNull⟩, none⟩,
      ⟨Value.vStr "name", ⟨"column_header_style", Value.vNull⟩, none⟩] :
        List Cell)[0]? =
      some ⟨Value.vStr "A", ⟨"column_header_style", Value.vNull⟩, none⟩ ∧
    ([⟨Value.vStr "A", ⟨"column_header_style", Value.vNull⟩, none⟩,
      ⟨Value.vStr "name", ⟨"column_header_style", Value.vNull⟩, none⟩] :
        List Cell)[1]? =
      some ⟨Value.vStr "name", ⟨"column_header_style", Value.vNull⟩, none⟩ := by
  have h0 := c8_column_title_overrides ⟨"column_header_style", .vNull⟩
    [.vStr "A"] ["id", "name"]
    [⟨.vStr "A", ⟨"column_header_style", .vNull⟩, none⟩,
     ⟨.vStr "name", ⟨"column_header_style", .vNull⟩, none⟩] (by decide) 0
  have h1 := c8_column_title_overrides ⟨"column_header_style", .vNull⟩
    [.vStr "A"] ["id", "name"]
    [⟨.vStr "A", ⟨"column_header_style", .vNull⟩, none⟩,
     ⟨.vStr "name", ⟨"column_header_style", .vNull⟩, none⟩] (by decide) 1
  exact ⟨h0.trans (by decide), h1.trans (by decide)⟩

/-- C9: when the named attribute exists on the configuration object but is
bound to a falsy value, `get_attribute` does not short-circuit on it: the
result is the `get_<name>()` accessor's value when that accessor exists
(with the default only when that value is `None`), and the falsy attribute
value itself otherwise (with the default only when it is `None`). -/
theorem c9_get_attribute_falsy_attribute (cfg : ViewConfig) (name : String)
    (d v : Value) (hattr : cfg.attrs name = some v)
    (hfalsy : isTruthy v = false) :
    get_attribute cfg name d =
      (match cfg.getters ("get_" ++ name) with
       | some result => if result = .vNull then d else result
       | none => if v = .vNull then d else v) := by
  unfold get_attribute
  rw [hattr]
  cases hg : cfg.getters ("get_" ++ name) <;> simp [hg, hfalsy]

/-- C9 witness: an `xlsx_body` attribute bound to an empty dict falls through
to the `get_xlsx_body` accessor, whose value is returned instead of the
default. -/
theorem c9_get_attribute_falsy_attribute_witness :
    get_attribute sampleView "xlsx_body" (.vStr "default") = .vStr "configured" := by
  have h := c9_get_attribute_falsy_attribute sampleView "xlsx_body"
    (.vStr "default") (.vDict false []) rfl rfl
  simpa [sampleView] using h

/-- C10: a record field whose value is an empty nested mapping contributes no
flattened entry at all — flattening such a field equals flattening the record
without it — and hence (for list results, where columns come from the
flattened first record) neither a discovered column nor a body cell. -/
theorem c10_empty_nested_mapping_vanishes :
    (∀ (ks ls pk k : String) (r : Bool) (es₁ es₂ : List (String × Value)),
      _flatten (es₁ ++ (k, .vDict r []) :: es₂) pk ks ls =
        _flatten (es₁ ++ es₂) pk ks ls) ∧
    _flatten [("a", .vDict false [])] "" "." ", " = [] ∧
    render (.vList [.vDict false [("x", .vInt 1), ("a", .vDict false [])]])
        emptyView =
      .ok (.workbook (.vStr "Report") false
        [[⟨.vStr "x", ⟨"column_header_style", .vNull⟩, none⟩],
         [⟨.vInt 1, ⟨"body_style", .vNull⟩, none⟩]]) := by
  refine ⟨?_, by decide, by decide⟩
  intro ks ls pk k r es₁ es₂
  unfold _flatten
  rw [flattenItems_append, flattenItems_append]
  simp [flattenItems, flattenEntry, dictOfItems]

end Claims

end DrfRendererXlsx
